import Mathlib

/-!
# Verification of the fluidpath semantic/physical path model

Shallow embedding of the `fluidpath` library (files `fluidpath/pathtype.py`,
`fluidpath/semantic_pathtype.py`, `fluidpath/path.py`) over a POSIX platform
(path separator "/").  Pure string manipulation is modelled over `String`
directly; filesystem collaborators (`os.stat`, `pathlib.Path.resolve`,
`os.walk`, `os.replace`) are modelled by passing their outcomes explicitly or
by a small explicit state, following the contracts stated for them.
-/

set_option autoImplicit false
set_option linter.unusedVariables false

/-! ## Python string primitives used by the source -/

/-- Model of Python `s.endswith(t)`. -/
def pyEndsWith (s t : String) : Bool :=
  t.data.isSuffixOf s.data

/-- Model of Python `s.startswith(t)`. -/
def pyStartsWith (s t : String) : Bool :=
  t.data.isPrefixOf s.data

/-- Model of Python `s.split(c)` for a one-character separator `c`:
splits at every occurrence, keeping empty pieces. -/
def pySplitChar (c : Char) (l : List Char) : List (List Char) :=
  match l with
  | [] => [[]]
  | x :: xs =>
    let rest := pySplitChar c xs
    if x = c then [] :: rest
    else
      match rest with
      | [] => [[x]]
      | r :: rs => (x :: r) :: rs

/-- Python `s.split(c)` lifted to `String`. -/
def pySplit (s : String) (c : Char) : List String :=
  (pySplitChar c s.data).map String.mk

/-- Model of Python `s.rstrip(".")`. -/
def rstripDots (s : String) : String :=
  String.mk ((s.data.reverse.dropWhile (fun ch => ch = '.')).reverse)

/-- Model of Python `s.lstrip(".")`. -/
def lstripDots (s : String) : String :=
  String.mk (s.data.dropWhile (fun ch => ch = '.'))

/-- Number of trailing '.' characters of a string (used as a termination
measure for the suffix-peeling recursion). -/
def trailingDots (s : String) : Nat :=
  (s.data.reverse.takeWhile (fun ch => ch = '.')).length

/-- Model of Python `'/'.join(parts)`. -/
def sepJoin (parts : List String) : String :=
  String.intercalate "/" parts

/-- Model of `re.fullmatch(r"\.+", s)`: `s` is one or more dots. -/
def isAllDots (s : String) : Bool :=
  !s.data.isEmpty && s.data.all (fun ch => ch = '.')

/-! ## fluidpath/pathtype.py -/

/-- `PathType`: the physical path type enumeration. -/
inductive PathType where
  | regularFile
  | directory
  | symlink
  | pipe
  | charDevice
  | blockDevice
  | socket
  | unknown
  | doesNotExist
deriving DecidableEq, Repr

/-- `identify_st_mode(mode)`: classify a raw `st_mode` bitmask, testing the
seven POSIX file-type predicates in the source's order.  The `stat` module's
predicates are `(mode & 0o170000) == <type bits>`. -/
def identify_st_mode (mode : Nat) : PathType :=
  if mode &&& 61440 = 32768 then PathType.regularFile   -- S_ISREG
  else if mode &&& 61440 = 16384 then PathType.directory -- S_ISDIR
  else if mode &&& 61440 = 40960 then PathType.symlink   -- S_ISLNK
  else if mode &&& 61440 = 4096 then PathType.pipe       -- S_ISFIFO
  else if mode &&& 61440 = 8192 then PathType.charDevice -- S_ISCHR
  else if mode &&& 61440 = 24576 then PathType.blockDevice -- S_ISBLK
  else if mode &&& 61440 = 49152 then PathType.socket    -- S_ISSOCK
  else PathType.unknown

/-! ## fluidpath/semantic_pathtype.py -/

/-- `SemanticPathType`: the semantic path type enumeration.  The enum values
are the rendered markers: "" for FILE, the separator for DIRECTORY. -/
inductive SemanticPathType where
  | file
  | directory
deriving DecidableEq, Repr

/-- The `value` of a `SemanticPathType` member ("" or `os.path.sep`). -/
def SemanticPathType.value (t : SemanticPathType) : String :=
  match t with
  | .file => ""
  | .directory => "/"

/-- `identify_semantic_path_type(path)`, parameterised by the platform
separator `sep` (`os.path.sep`). -/
def identify_semantic_path_type (sep : String) (path : String) : SemanticPathType :=
  if path = "." ∨ path = ".." then SemanticPathType.directory
  else if pyEndsWith path sep then SemanticPathType.directory
  else if sep ≠ "/" ∧ pyEndsWith path "/" then SemanticPathType.directory
  else SemanticPathType.file

/-! ## C4: semantic inference -/

/-- C4: for every string `s`, semantic inference returns Directory exactly when
`s` is "." or "..", or ends with the platform separator, or (when the
separator is not "/") ends with "/"; every other string is classified File. -/
theorem identify_semantic_path_type_spec (sep s : String) :
    (identify_semantic_path_type sep s = SemanticPathType.directory ↔
      (s = "." ∨ s = ".." ∨ pyEndsWith s sep = true ∨
        (sep ≠ "/" ∧ pyEndsWith s "/" = true)))
    ∧ (identify_semantic_path_type sep s = SemanticPathType.file ↔
      ¬ (s = "." ∨ s = ".." ∨ pyEndsWith s sep = true ∨
        (sep ≠ "/" ∧ pyEndsWith s "/" = true))) := by
  unfold identify_semantic_path_type
  split_ifs with h1 h2 h3 <;> simp_all <;> tauto

/-! ## Path.exists (fluidpath/path.py lines 949-1002)

The `stat` collaborator is passed in as its outcome: either an error raised
by the call, or the `st_mode` bitmask of the result.  The `follow_symlinks`
argument only selects which stat is performed, so it is absorbed into the
outcome parameter. -/

/-- Errors raised by the OS stat collaborator. -/
inductive StatError where
  | fileNotFound
  | notADirectory
  | permissionError
  | osError
deriving DecidableEq, Repr

/-- The semantic-type tag of a fluidpath `Path` together with its underlying
`pathlib` value; defined below.  For `exists`, only the semantic tag matters,
so `exists` is modelled on the tag.  `Path.exists`:
catch FileNotFoundError/NotADirectoryError from stat as "does not exist";
non-strict mode accepts any existing entry; strict mode compares the
physical classification against the semantic tag. -/
def semanticExists (sem : SemanticPathType) (statRes : Except StatError Nat)
    (strict : Bool) : Except StatError Bool :=
  match statRes with
  | .error .fileNotFound => .ok false
  | .error .notADirectory => .ok false
  | .error e => .error e
  | .ok mode =>
    if !strict then .ok true
    else
      let pathtype := identify_st_mode mode
      if sem == SemanticPathType.directory then
        .ok (pathtype == PathType.directory)
      else
        .ok (!(pathtype == PathType.directory) && !(pathtype == PathType.unknown))

/-! ## C1: exists reconciliation -/

/-- C1: stat errors FileNotFound/NotADirectory yield `false` (not an error);
with `strict=false` any existing entry yields `true`; with `strict=true` the
result is `true` iff the physical classification matches the semantic
category (Directory needs physical Directory; File needs anything except
Directory or Unknown). -/
theorem exists_reconciliation_spec (sem : SemanticPathType)
    (statRes : Except StatError Nat) (strict : Bool) :
    ((statRes = .error .fileNotFound ∨ statRes = .error .notADirectory) →
      semanticExists sem statRes strict = .ok false)
    ∧ (∀ m : Nat, strict = false → statRes = .ok m →
      semanticExists sem statRes strict = .ok true)
    ∧ (∀ m : Nat, strict = true → statRes = .ok m →
      (semanticExists sem statRes strict = .ok true ↔
        ((sem = SemanticPathType.directory ∧ identify_st_mode m = PathType.directory) ∨
         (sem = SemanticPathType.file ∧ identify_st_mode m ≠ PathType.directory ∧
           identify_st_mode m ≠ PathType.unknown)))) := by
  refine ⟨?_, ?_, ?_⟩
  · rintro (rfl | rfl) <;> rfl
  · rintro m rfl rfl
    rfl
  · rintro m rfl rfl
    cases sem <;> cases h : identify_st_mode m <;>
      simp [semanticExists, h]

/-- Witness for C1 at concrete inputs: a missing file reports `false`; an
existing regular file (mode 0o100644 = 33188) exists non-strictly; a
directory-tagged path over a physical directory (mode 0o040755 = 16877)
exists strictly. -/
theorem exists_reconciliation_witness :
    semanticExists SemanticPathType.file (.error .fileNotFound) true = .ok false
    ∧ semanticExists SemanticPathType.file (.ok 33188) false = .ok true
    ∧ semanticExists SemanticPathType.directory (.ok 16877) true = .ok true := by
  refine ⟨?_, ?_, ?_⟩
  · exact (exists_reconciliation_spec SemanticPathType.file (.error .fileNotFound) true).1
      (Or.inl rfl)
  · exact (exists_reconciliation_spec SemanticPathType.file (.ok 33188) false).2.1
      33188 rfl rfl
  · exact ((exists_reconciliation_spec SemanticPathType.directory (.ok 16877) true).2.2
      16877 rfl rfl).mpr (by decide)

/-! ## The pathlib collaborator (PurePosixPath)

The underlying hierarchical path primitive.  A parsed POSIX path is a root
(0, 1 or 2 leading slashes; pathlib collapses 3 or more to 1) plus the list
of non-empty, non-"." components. -/

/-- A parsed `pathlib.PurePosixPath` value. -/
structure PPath where
  root : Nat
  parts : List String
deriving DecidableEq, Repr

/-- Parse a single string into a `PPath`, following pathlib's rules:
exactly two leading slashes are kept as a "//" root, one or three-plus become
"/", and empty or "." components are dropped. -/
def ppParse (s : String) : PPath :=
  let root : Nat :=
    if pyStartsWith s "//" ∧ ¬ pyStartsWith s "///" then 2
    else if pyStartsWith s "/" then 1
    else 0
  { root := root
    parts := (pySplit s '/').filter (fun c => c ≠ "" ∧ c ≠ ".") }

/-- Render a `PPath` the way `str(pathlib.PurePosixPath(...))` does:
root slashes followed by the components joined with "/"; the empty relative
path renders as ".". -/
def ppStr (p : PPath) : String :=
  if p.root = 0 ∧ p.parts = [] then "."
  else
    (if p.root = 2 then "//" else if p.root = 1 then "/" else "") ++ sepJoin p.parts

/-- `pathlib.PurePath.name`: the final component, or "" for a root-only or
empty path. -/
def ppName (p : PPath) : String :=
  (p.parts.getLast?).getD ""

/-- `pathlib.PurePath.parent`: drop the final component; the parent of a
root-only or empty path is itself. -/
def ppParent (p : PPath) : PPath :=
  if p.parts = [] then p else { p with parts := p.parts.dropLast }

/-- Errors raised by the pathlib collaborator's pure accessors. -/
inductive PyErr where
  | valueError
  | recursionError
deriving DecidableEq, Repr

/-- `pathlib.PurePath.with_name(name)`: fails when the path has no final
component or when the replacement is empty, contains the separator, or is
"."; otherwise replaces the final component. -/
def pp_with_name (p : PPath) (name : String) : Except PyErr PPath :=
  if p.parts = [] then .error .valueError
  else if name = "" ∨ name.data.contains '/' ∨ name = "." then .error .valueError
  else .ok { p with parts := p.parts.dropLast ++ [name] }

/-- Index of the last occurrence of `c` in `l`, if any (Python `str.rfind`). -/
def rfindIdx (l : List Char) (c : Char) : Option Nat :=
  match l with
  | [] => none
  | x :: xs =>
    match rfindIdx xs c with
    | some i => some (i + 1)
    | none => if x = c then some 0 else none

/-- `pathlib.PurePath.suffix` computed from the final component: the part
from the last dot, provided that dot is neither the first nor the last
character of the name. -/
def pp_suffix (name : String) : String :=
  match rfindIdx name.data '.' with
  | some i => if 0 < i ∧ i < name.data.length - 1 then String.mk (name.data.drop i) else ""
  | none => ""

/-- `pathlib.PurePath.suffixes` computed from the final component: empty when
the name ends with a dot; otherwise strip leading dots and turn each
dot-separated piece after the first into a ".piece" entry. -/
def pp_suffixes (name : String) : List String :=
  if pyEndsWith name "." then []
  else ((pySplit (lstripDots name) '.').drop 1).map (fun s => "." ++ s)

/-- `os.path.normpath` for POSIX: collapse empty and "." components, resolve
".." against preceding components (keeping leading ".." runs on relative
paths), and preserve the special two-slash root. -/
def normpath (path : String) : String :=
  if path = "" then "."
  else
    let initialSlashes : Nat :=
      if pyStartsWith path "/" then
        (if pyStartsWith path "//" ∧ ¬ pyStartsWith path "///" then 2 else 1)
      else 0
    let newComps := (pySplit path '/').foldl (fun acc comp =>
      if comp = "" ∨ comp = "." then acc
      else if comp ≠ ".." ∨ (initialSlashes = 0 ∧ acc = []) ∨ acc.getLast? = some ".." then
        acc ++ [comp]
      else if acc ≠ [] then acc.dropLast
      else acc) []
    let joined := String.mk (List.replicate initialSlashes '/') ++ sepJoin newComps
    if joined = "" then "." else joined

/-! ## The fluidpath Path entity (fluidpath/path.py)

The entity lives in the `Fluidpath` namespace because Mathlib already has a
`Path`; inside the namespace the source's class name is kept. -/

namespace Fluidpath

/-- The core `Path` entity: an owned pathlib value plus the semantic tag.
`Path.mk` plays the role of the privileged `_from_pathlib_path` constructor
that sets both fields directly. -/
structure Path where
  rep : PPath
  sem : SemanticPathType
deriving DecidableEq, Repr

/-- The public constructor `Path(segment)` for a single string segment:
infer the semantic type from the segment and parse it with pathlib. -/
def Path.ofString (s : String) : Path :=
  { rep := ppParse s, sem := identify_semantic_path_type "/" s }

/-- `Path.__str__`: the normalized underlying string with the semantic
marker (the enum `value`) appended. -/
def Path.render (p : Path) : String :=
  normpath (ppStr p.rep) ++ p.sem.value

/-- `Path.name`: delegated to the pathlib value. -/
def Path.name (p : Path) : String :=
  ppName p.rep

/-- `Path.parent`: the pathlib parent, always tagged as a Directory. -/
def Path.parent (p : Path) : Path :=
  { rep := ppParent p.rep, sem := SemanticPathType.directory }

/-- `Path.absolute`: make the underlying path absolute against the current
working directory (pathlib: return self when already absolute, else prefix
the cwd); the semantic tag is passed through unchanged. -/
def Path.absolute (p : Path) (cwd : PPath) : Path :=
  { rep := if p.rep.root ≠ 0 then p.rep else { root := cwd.root, parts := cwd.parts ++ p.rep.parts }
    sem := p.sem }

/-- `Path.with_name`: delegate to pathlib's `with_name`, preserving the
semantic tag verbatim. -/
def Path.with_name (p : Path) (name : String) : Except PyErr Path :=
  (pp_with_name p.rep name).map (fun r => { rep := r, sem := p.sem })

/-- `Path.with_stem`: pathlib's `with_stem` is `with_name(stem + suffix)`;
the semantic tag is preserved verbatim. -/
def Path.with_stem (p : Path) (stem : String) : Except PyErr Path :=
  (pp_with_name p.rep (stem ++ pp_suffix (ppName p.rep))).map
    (fun r => { rep := r, sem := p.sem })

/-- `Path.resolve`: the outcome of the `pathlib.Path.resolve(strict=...)`
collaborator is passed in; on success it carries the resolved path together
with the answer of the subsequent `is_dir()` query, and the semantic type is
re-derived from that answer.  A FileNotFoundError is caught (whatever
`strict` was) and the method falls back to the absolute, unresolved path
(`absRep`), preserving the prior semantic type; any other OS error
propagates. -/
def Path.resolve (p : Path) (strict : Bool)
    (res : Except StatError (PPath × Bool)) (absRep : PPath) : Except StatError Path :=
  match res with
  | .ok (r, isDir) =>
    .ok { rep := r
          sem := if isDir then SemanticPathType.directory else SemanticPathType.file }
  | .error .fileNotFound => .ok { rep := absRep, sem := p.sem }
  | .error e => .error e

/-! ## C3: resolve semantics

The source wraps the whole body in `try ... except FileNotFoundError`, so the
not-found error raised by a strict resolve is swallowed and the fallback
taken, contradicting the method's own docstring, which promises
`:raises OSError: if strict is True and the path does not exist`. -/

/-- C3 (code bug): `resolve(strict=True)` never propagates the not-found
error: for every path, a FileNotFoundError from the underlying strict
resolve produces the absolute-path fallback with the prior semantic type
instead of an error.  (The success branch does re-derive the semantic type
from the physical state, and other OS errors do propagate.) -/
theorem resolve_strict_swallows_not_found (p : Path) (absRep : PPath) :
    Path.resolve p true (.error .fileNotFound) absRep
      = .ok { rep := absRep, sem := p.sem }
    ∧ (∀ r : PPath, Path.resolve p true (.ok (r, true)) absRep
        = .ok { rep := r, sem := SemanticPathType.directory })
    ∧ (∀ r : PPath, Path.resolve p true (.ok (r, false)) absRep
        = .ok { rep := r, sem := SemanticPathType.file })
    ∧ Path.resolve p true (.error .osError) absRep = .error .osError := by
  exact ⟨rfl, fun _ => rfl, fun _ => rfl, rfl⟩

/-! ## C5: string rendering and the semantic marker -/

/-- C5 (counterexample): the claim "str(p) ends with the separator iff p is
semantically a Directory" fails at the concrete path `Path("/..")`: its tail
"/.." is classified File, yet its normalized rendering is "/", which ends
with the separator. -/
theorem render_sep_iff_directory_counterexample :
    ¬ (pyEndsWith (Path.render (Path.ofString "/..")) "/" = true ↔
        (Path.ofString "/..").sem = SemanticPathType.directory) := by
  decide

/-- C5 (amended): rendering appends the separator exactly when the semantic
type is Directory, even when the normalized underlying string already ends
in the separator (so the root renders as "//" when tagged Directory); hence
str(p) ends with the separator iff p is semantically a Directory or the
normalized underlying string itself ends with the separator. -/
theorem render_semantic_marker_amended (p : Path) :
    (p.sem = SemanticPathType.directory →
      Path.render p = normpath (ppStr p.rep) ++ "/")
    ∧ (p.sem = SemanticPathType.file →
      Path.render p = normpath (ppStr p.rep))
    ∧ (pyEndsWith (Path.render p) "/" = true ↔
        (p.sem = SemanticPathType.directory ∨
          pyEndsWith (normpath (ppStr p.rep)) "/" = true)) := by
  rcases p with ⟨rep, sem⟩
  cases sem <;>
    simp [Path.render, SemanticPathType.value, pyEndsWith, String.data_append,
      List.suffix_append]

/-- Witness for the amended C5 at a concrete path: the directory-tagged root
"/" renders as "//", which ends with the separator. -/
theorem render_semantic_marker_witness :
    Path.render (Path.ofString "/") = normpath (ppStr (Path.ofString "/").rep) ++ "/"
    ∧ pyEndsWith (Path.render (Path.ofString "/")) "/" = true := by
  refine ⟨(render_semantic_marker_amended (Path.ofString "/")).1 (by decide), ?_⟩
  exact ((render_semantic_marker_amended (Path.ofString "/")).2.2).mpr (Or.inl (by decide))

/-! ## C6: semantic-type propagation through transformations -/

/-- C6 (counterexample): `parent` does not preserve the semantic type: the
parent of the File-tagged path "/foo/bar/baz.txt" is tagged Directory. -/
theorem parent_preserves_semantic_counterexample :
    ¬ ((Path.parent (Path.ofString "/foo/bar/baz.txt")).sem
        = (Path.ofString "/foo/bar/baz.txt").sem) := by
  decide

/-- C6 (amended): `parent` always produces a Directory-tagged path, while
`absolute`, the resolve fallback, `with_name` and `with_stem` preserve the
existing semantic type verbatim. -/
theorem transform_semantic_type_amended (p : Path) (cwd absRep : PPath)
    (strict : Bool) (n s : String) (q r : Path) :
    (Path.parent p).sem = SemanticPathType.directory
    ∧ (Path.absolute p cwd).sem = p.sem
    ∧ Path.resolve p strict (.error .fileNotFound) absRep
        = .ok { rep := absRep, sem := p.sem }
    ∧ (Path.with_name p n = .ok q → q.sem = p.sem)
    ∧ (Path.with_stem p s = .ok r → r.sem = p.sem) := by
  refine ⟨rfl, rfl, rfl, ?_, ?_⟩
  · intro h
    unfold Path.with_name at h
    cases hw : pp_with_name p.rep n with
    | error e => rw [hw] at h; cases h
    | ok v => rw [hw] at h; cases h; rfl
  · intro h
    unfold Path.with_stem at h
    cases hw : pp_with_name p.rep (s ++ pp_suffix (ppName p.rep)) with
    | error e => rw [hw] at h; cases h
    | ok v => rw [hw] at h; cases h; rfl

/-- Witness for the amended C6 at concrete inputs, with the `with_name` and
`with_stem` hypotheses discharged on "/a/b.txt". -/
theorem transform_semantic_type_witness :
    (Path.parent (Path.ofString "/a/b.txt")).sem = SemanticPathType.directory
    ∧ (Path.absolute (Path.ofString "/a/b.txt") (ppParse "/home")).sem
        = (Path.ofString "/a/b.txt").sem
    ∧ Path.resolve (Path.ofString "/a/b.txt") true (.error .fileNotFound) (ppParse "/a/b.txt")
        = .ok { rep := ppParse "/a/b.txt", sem := (Path.ofString "/a/b.txt").sem }
    ∧ (Path.mk (PPath.mk 1 ["a", "c.txt"]) SemanticPathType.file).sem
        = (Path.ofString "/a/b.txt").sem
    ∧ (Path.mk (PPath.mk 1 ["a", "c.txt"]) SemanticPathType.file).sem
        = (Path.ofString "/a/b.txt").sem := by
  have h := transform_semantic_type_amended (Path.ofString "/a/b.txt")
    (ppParse "/home") (ppParse "/a/b.txt") true "c.txt" "c"
    (Path.mk (PPath.mk 1 ["a", "c.txt"]) SemanticPathType.file)
    (Path.mk (PPath.mk 1 ["a", "c.txt"]) SemanticPathType.file)
  exact ⟨h.1, h.2.1, h.2.2.1, h.2.2.2.1 rfl, h.2.2.2.2 rfl⟩

/-! ## C10: equality versus hashing -/

/-- `Path.__eq__` between two fluidpath paths: equality of the rendered
(normalized, semantically marked) strings. -/
def Path.eq (p q : Path) : Bool :=
  Path.render p == Path.render q

/-- `Path.__hash__` delegates to `hash(self._path)`, and `pathlib` hashes
the case-normalized *unnormalized* string of the path; on POSIX the
case-normalization is the identity.  This definition is that hash key: the
hash is a function of exactly this string, so the hashes of two paths are
guaranteed to agree only when their keys agree. -/
def Path.hashKey (p : Path) : String :=
  ppStr p.rep

/-- C10 (code bug): `Path("a/b")` and `Path("a/b/../b")` are equal under
`__eq__` (their normalized renderings agree), yet their hashes are computed
from different strings ("a/b" versus "a/b/../b"), so equal objects are not
guaranteed equal hashes, breaking the hash/equality congruence Python
requires of `__eq__`/`__hash__` pairs. -/
theorem eq_hash_incongruent :
    Path.eq (Path.ofString "a/b") (Path.ofString "a/b/../b") = true
    ∧ Path.hashKey (Path.ofString "a/b") ≠ Path.hashKey (Path.ofString "a/b/../b") := by
  decide


/-! ## C2: is_directory / is_file (fluidpath/path.py lines 1030-1127)

Both methods branch on `target.type`, the physical classification of the
(resolved, when following symlinks) path; that classification is passed in
as a parameter.  `is_directory` follows the source's branch order:
Directory first, then DoesNotExist, else false.  `is_file` likewise keeps
the source's branch order: its first branch returns true for *any* type
outside {Directory, Unknown} — which already includes DoesNotExist, making
the later DoesNotExist fallback branch unreachable. -/

/-- `Path.is_directory` as a function of the target's physical type. -/
def Path.is_directory (p : Path) (targetType : PathType) (mustExist : Bool) : Bool :=
  if targetType == PathType.directory then true
  else if targetType == PathType.doesNotExist then
    (if mustExist then false else p.sem == SemanticPathType.directory)
  else false

/-- `Path.is_file` as a function of the target's physical type, with the
source's branch order preserved (including the unreachable fallback). -/
def Path.is_file (p : Path) (targetType : PathType) (mustExist : Bool) : Bool :=
  if !(targetType == PathType.directory) && !(targetType == PathType.unknown) then true
  else if targetType == PathType.doesNotExist then
    (if mustExist then false else p.sem == SemanticPathType.file)
  else false

/-- C2 (code bug): on a nonexistent path, `is_file(must_exist=True)` returns
`True` (the claim and the method's own docstring say `False`), and
`is_file(must_exist=False)` on a Directory-tagged nonexistent path also
returns `True` (docstring says `False`): the DoesNotExist branch is dead
because DoesNotExist already passes the "not Directory/Unknown" test.
`is_directory` does behave as claimed. -/
theorem is_file_nonexistent_returns_true :
    Path.is_file (Path.ofString "/path/to/nonexisting/file") PathType.doesNotExist true = true
    ∧ Path.is_file (Path.ofString "/path/to/nonexisting/directory/") PathType.doesNotExist false
        = true
    ∧ Path.is_directory (Path.ofString "/path/to/nonexisting/directory/") PathType.doesNotExist true
        = false
    ∧ Path.is_directory (Path.ofString "/path/to/nonexisting/directory/") PathType.doesNotExist false
        = true := by
  decide

/-! ## C7: write_text_atomic (fluidpath/path.py lines 1331-1364)

The relevant filesystem state is the content at the destination and at the
temporary location, each `Option String` (none = absent).  The steps are the
source's calls in order:
  * `temporary_file` enter: `tempfile.mkstemp` creates an (empty) temp file;
  * `write_text` on the temp path;
  * `temporary_file` exit: the context manager runs `delete(force=True)`
    on the temp path — note this happens when the `with` block closes,
    *before* the replace step, because the `replace` call sits outside the
    `with` block in the source;
  * `replace`: guarded by `if not self.exists(follow_symlinks=False)` on the
    temp path, raising FileNotFoundError when the temp file is gone,
    otherwise an atomic `os.replace` of the temp file over the target;
  * on any exception from `replace`: best-effort `delete()` of the temp path
    (errors suppressed), then re-raise. -/

/-- The two locations touched by an atomic write. -/
structure AtomicFS where
  target : Option String
  temp : Option String
deriving DecidableEq, Repr

/-- `Path.temporary_file` context enter: `mkstemp` creates an empty file. -/
def temporary_file_enter (fs : AtomicFS) : AtomicFS :=
  { fs with temp := some "" }

/-- `write_text` on the temporary path. -/
def temp_write_text (fs : AtomicFS) (data : String) : AtomicFS :=
  { fs with temp := some data }

/-- `Path.temporary_file` context exit: `delete(force=True)` on the temp
path (best-effort removal). -/
def temporary_file_exit (fs : AtomicFS) : AtomicFS :=
  { fs with temp := none }

/-- `Path.replace` of the temporary path over the target: raises
FileNotFoundError when nothing exists at the temporary path, otherwise the
atomic `os.replace`. -/
def temp_replace_target (fs : AtomicFS) : Except StatError AtomicFS :=
  if fs.temp.isSome then .ok { target := fs.temp, temp := none }
  else .error .fileNotFound

/-- `Path.write_text_atomic`: the source's steps composed in order.  The
error case carries the final filesystem state alongside the re-raised
exception. -/
def write_text_atomic (fs : AtomicFS) (data : String) : Except (StatError × AtomicFS) AtomicFS :=
  let fs3 := temporary_file_exit (temp_write_text (temporary_file_enter fs) data)
  match temp_replace_target fs3 with
  | .ok fsOk => .ok fsOk
  | .error e =>
    -- best-effort delete of the temp artifact (suppressed), then re-raise
    .error (e, { fs3 with temp := none })

/-- C7 (code bug): `write_text_atomic` can never succeed: the temporary file
is deleted when the `with` block exits, before the replace step, so the
replace always raises FileNotFoundError.  The target's prior content is left
intact and the temporary artifact is removed, but the promised successful
completion (target containing the new data) is unreachable. -/
theorem write_text_atomic_always_fails (fs : AtomicFS) (data : String) :
    write_text_atomic fs data
      = .error (.fileNotFound, { target := fs.target, temp := none }) := by
  rfl


/-! ## C9: suffix and suffixes (fluidpath/path.py lines 466-523) -/

/-- Helper: a successful `with_name` replaces exactly the final component,
so the new path's name is the requested one. -/
theorem with_name_ok_name (p : Path) (n : String) (q : Path)
    (h : Path.with_name p n = .ok q) : Path.name q = n := by
  unfold Path.with_name pp_with_name at h
  by_cases h1 : p.rep.parts = []
  · simp [h1, Except.map] at h
  · by_cases h2 : n = "" ∨ '/' ∈ n.data ∨ n = "."
    · simp [h1, h2, Except.map] at h
    · simp [h1, h2, Except.map] at h
      subst h
      simp [Path.name, ppName, List.getLast?_concat]

/-- Helper: taking while a predicate holds after dropping while it holds
yields nothing. -/
theorem takeWhile_dropWhile_nil {α : Type} (p : α → Bool) (l : List α) :
    (l.dropWhile p).takeWhile p = [] := by
  induction l with
  | nil => simp
  | cons a l ih =>
    by_cases h : p a = true
    · simpa [List.dropWhile_cons, h] using ih
    · simp [List.dropWhile_cons, h, List.takeWhile_cons, h]

/-- Helper: stripping trailing dots leaves no trailing dots. -/
theorem trailingDots_rstripDots (s : String) : trailingDots (rstripDots s) = 0 := by
  simp [trailingDots, rstripDots, takeWhile_dropWhile_nil]

/-- `Path.suffix`: empty for an all-dots rendering, a literal "." for a
rendering ending in a dot, else pathlib's suffix of the final component.
The all-dots test is `re.fullmatch` against `str(self)` — the whole rendered
path — exactly as in the source. -/
def Path.suffix (p : Path) : String :=
  if isAllDots (Path.render p) then ""
  else if pyEndsWith (Path.render p) "." then "."
  else pp_suffix (Path.name p)

/-- `Path.suffixes`: empty for an all-dots rendering; for a rendering ending
in a dot, recurse on the path renamed to its name with all trailing dots
stripped (`self.name.rstrip(".")`) and append a literal "." layer — the
rename goes through `with_name`, whose ValueError propagates; otherwise
pathlib's suffixes of the final component.  When the stripped name equals
the old one the source would recurse on an identical path, which in Python
ends in a RecursionError; that (unreachable) branch is modelled as that
error. -/
def Path.suffixes (p : Path) : Except PyErr (List String) :=
  if isAllDots (Path.render p) then .ok []
  else if pyEndsWith (Path.render p) "." then
    match hw : Path.with_name p (rstripDots (Path.name p)) with
    | .error e => .error e
    | .ok q =>
      if hz : trailingDots (Path.name p) = 0 then .error .recursionError
      else (Path.suffixes q).map (fun l => l ++ ["."])
  else .ok (pp_suffixes (Path.name p))
termination_by trailingDots (Path.name p)
decreasing_by
  rw [with_name_ok_name p (rstripDots (Path.name p)) q hw, trailingDots_rstripDots]
  omega

/-- C9 (counterexample): the all-dots special case tests the whole rendered
path, not the final name: "/foo/..." has the all-dots name "..." yet its
suffix is the literal "." rather than the empty string the claim requires. -/
theorem suffix_all_dots_name_counterexample :
    isAllDots (Path.name (Path.ofString "/foo/...")) = true
    ∧ Path.suffix (Path.ofString "/foo/...") = "." := by
  decide

/-- Helper: appending "." at the string level appends '.' to the data. -/
theorem data_append_dot (base : String) : (base ++ ".").data = base.data ++ ['.'] := by
  simp [String.data_append]

/-- Helper: stripping the trailing dots of `base ++ "."` recovers `base`
when `base` itself does not end in a dot. -/
theorem rstripDots_append_dot (base : String) (h : pyEndsWith base "." = false) :
    rstripDots (base ++ ".") = base := by
  rcases hb : base.data.reverse with _ | ⟨c, cs⟩
  · have hnil : base.data = [] := by simpa using congrArg List.reverse hb
    simp [rstripDots, data_append_dot, hnil]
    apply String.ext
    simp [hnil]
  · have hbd : base.data = cs.reverse ++ [c] := by
      have := congrArg List.reverse hb
      simpa using this
    have hc : ¬ c = '.' := by
      intro hceq
      subst hceq
      have hs : (".".data).isSuffixOf base.data = true :=
        List.isSuffixOf_iff_suffix.mpr ⟨cs.reverse, by simp [hbd]⟩
      rw [pyEndsWith, hs] at h
      cases h
    simp only [rstripDots, data_append_dot, List.reverse_append]
    simp [hb, hc]
    apply String.ext
    simp [hbd]

/-- Helper: a string of the form `base ++ "."` has at least one trailing
dot. -/
theorem trailingDots_append_dot_pos (base : String) :
    trailingDots (base ++ ".") ≠ 0 := by
  simp [trailingDots, data_append_dot, List.takeWhile_cons]

/-- C9 (amended): the all-dots special case applies when the whole rendered
path string is dots — then the suffix is empty and the suffixes list is
empty; and for a path whose name is `base ++ "."` with `base` a valid
non-dot-terminated name (one literal trailing dot), the final suffix is the
literal "." and the remaining suffixes are those of the path renamed to
`base`, with the "." layer appended. -/
theorem suffix_special_cases_amended (p : Path) (base : String) :
    (isAllDots (Path.render p) = true → Path.suffix p = "" ∧ Path.suffixes p = .ok [])
    ∧ (isAllDots (Path.render p) = false →
       pyEndsWith (Path.render p) "." = true →
       Path.name p = base ++ "." →
       pyEndsWith base "." = false →
       ¬ (base = "" ∨ '/' ∈ base.data ∨ base = ".") →
       p.rep.parts ≠ [] →
       Path.suffix p = "." ∧
       Path.suffixes p =
         (Path.suffixes { rep := { root := p.rep.root, parts := p.rep.parts.dropLast ++ [base] },
                          sem := p.sem }).map (fun l => l ++ ["."])) := by
  constructor
  · intro h
    constructor
    · simp [Path.suffix, h]
    · rw [Path.suffixes]
      simp [h]
  · intro h1 h2 hname hbase hvalid hparts
    have hstrip : rstripDots (Path.name p) = base := by
      rw [hname, rstripDots_append_dot base hbase]
    have hwn : Path.with_name p (rstripDots (Path.name p)) =
        .ok { rep := { root := p.rep.root, parts := p.rep.parts.dropLast ++ [base] },
              sem := p.sem } := by
      rw [hstrip]
      unfold Path.with_name pp_with_name
      simp [hparts, hvalid, Except.map]
    have htd : trailingDots (Path.name p) ≠ 0 := by
      rw [hname]
      exact trailingDots_append_dot_pos base
    constructor
    · simp [Path.suffix, h1, h2]
    · rw [Path.suffixes]
      simp only [h1, h2, Bool.false_eq_true, if_false, if_true]
      split
      · rename_i e heq
        rw [hwn] at heq
        cases heq
      · rename_i q heq
        rw [hwn] at heq
        cases heq
        rw [dif_neg htd]

/-- Witness for the amended C9: the all-dots path "..." has empty suffix and
suffixes, and "/foo.txt." peels ".txt" then the literal ".". -/
theorem suffix_special_cases_witness :
    (Path.suffix (Path.ofString "...") = "" ∧ Path.suffixes (Path.ofString "...") = .ok [])
    ∧ (Path.suffix (Path.ofString "/foo.txt.") = "." ∧
       Path.suffixes (Path.ofString "/foo.txt.") =
         (Path.suffixes { rep := { root := (Path.ofString "/foo.txt.").rep.root,
                                   parts := (Path.ofString "/foo.txt.").rep.parts.dropLast
                                     ++ ["foo.txt"] },
                          sem := (Path.ofString "/foo.txt.").sem }).map
           (fun l => l ++ ["."])) := by
  constructor
  · exact (suffix_special_cases_amended (Path.ofString "...") "x").1 (by decide)
  · exact (suffix_special_cases_amended (Path.ofString "/foo.txt.") "foo.txt").2
      (by decide) (by decide) (by decide) (by decide) (by decide) (by decide)

/-! ## C8: traverse with a depth bound (fluidpath/path.py lines 1893-2018) -/

/-- Error raised by `_get_relative_depth` when containment fails. -/
inductive TravErr where
  | valueError
deriving DecidableEq, Repr

/-- A pure directory tree standing for the filesystem the `os.walk`
collaborator enumerates: named subdirectories and file names. -/
inductive FSTree where
  | node (dirs : List (String × FSTree)) (files : List String)

/-- `__contains__` on absolute, normalized segment paths: `other` lies in
the subtree rooted at `self` when `self`'s segments are a prefix of
`other`'s (`is_relative_to` with both sides resolved). -/
def pathContains (self other : List String) : Bool :=
  self.isPrefixOf other

/-- `_get_relative_depth(self, other)` (fluidpath/path.py lines 1805-1830):
the number of components of `other` relative to `self`; raises ValueError
when `other` is not contained in `self`, returns 0 when the two denote the
same file, and otherwise the length of `other.relative_to(self)`. -/
def get_relative_depth (self other : List String) : Except TravErr Nat :=
  if ¬ pathContains self other then .error .valueError
  else if other = self then .ok 0
  else .ok (other.length - self.length)

mutual

/-- One step of `Path.traverse` on the os.walk triple of the current
directory `cur`, specialised to the claim's arguments (top_down=True,
show_hidden=True, exclude_globs=None).  The body follows the source loop:
compute the depth of the current directory by calling
`root._get_relative_depth(self)` — with the current walk directory as
receiver and the traversal root as argument, exactly as the source writes
it — clear the subdirectory list when the bound is reached, yield the
directory, yield its files, then recurse into the surviving subdirectories.
The result is the list of yielded paths and, when the generator raises, the
error that ended it. -/
def traverseAux (selfRoot : List String) (maxDepth : Option Nat) (cur : List String) :
    FSTree → List (List String) × Option TravErr
  | .node dirs files =>
    let depthCheck : Except TravErr Bool :=
      match maxDepth with
      | none => .ok false
      | some n => (get_relative_depth cur selfRoot).map (fun d => n ≤ d)
    match depthCheck with
    | .error e => ([], some e)
    | .ok prune =>
      let yields := cur :: files.map (fun f => cur ++ [f])
      if prune then (yields, none)
      else
        let r := traverseList selfRoot maxDepth cur dirs
        (yields ++ r.1, r.2)

/-- Walk the subdirectories in order, stopping at the first raised error. -/
def traverseList (selfRoot : List String) (maxDepth : Option Nat) (cur : List String) :
    List (String × FSTree) → List (List String) × Option TravErr
  | [] => ([], none)
  | (name, sub) :: rest =>
    let r := traverseAux selfRoot maxDepth (cur ++ [name]) sub
    match r.2 with
    | some _ => r
    | none =>
      let r2 := traverseList selfRoot maxDepth cur rest
      (r.1 ++ r2.1, r2.2)

end

/-- `Path.traverse` itself: walk from the root directory. -/
def traverse (root : List String) (t : FSTree) (maxDepth : Option Nat) :
    List (List String) × Option TravErr :=
  traverseAux root maxDepth root t

/-- C8 (code bug): with `max_depth=0` on a root containing a single file,
traverse yields "root/f", one segment beyond the bound, because only the
subdirectory list is cleared while the files of a bound-depth directory are
still yielded; and with `max_depth=1` on a root with one subdirectory, the
walk raises ValueError on entering the subdirectory, because the source's
depth computation `root._get_relative_depth(self)` swaps receiver and
argument. -/
theorem traverse_max_depth_violations :
    traverse ["root"] (FSTree.node [] ["f"]) (some 0)
      = ([["root"], ["root", "f"]], none)
    ∧ traverse ["root"] (FSTree.node [("sub", FSTree.node [] [])] []) (some 1)
      = ([["root"]], some TravErr.valueError) := by
  decide

end Fluidpath
